import Mathlib

/-!
Verification of `gdubm_summarize.py`, a script that decodes a Gnome Disk
Utility benchmark cache file and prints either a verbose summary or a
tab-separated line of averages.

Modelling conventions:
* Python numbers (ints and floats) are modelled as exact rationals `ℚ`;
  machine floating point is idealised as exact arithmetic.
* A Python exception is a constructor of `PyErr`; a computation that can
  raise returns `Except PyErr α`.
* A printing function returns the list of lines it wrote to stdout paired
  with the exception, if any, that escaped it (`List String × Option PyErr`):
  Python's `print` emits each line as soon as its f-string argument has been
  evaluated, so an exception raised while evaluating a later line leaves the
  earlier lines already emitted.
* The GLib library boundary (memory-mapping the file and parsing the bytes
  into a variant) is represented by an `Except PyErr BenchmarkVariant`
  argument: `ioError` stands for a `GLib.MappedFile` failure and
  `formatError` for a `GLib.Variant.new_from_bytes` failure; the decoded
  `a{sv}` dictionary is represented by the `BenchmarkVariant` structure
  holding the keys the script reads.
-/

/-- The kinds of Python exception relevant to the script.  `emptySamples` is
never raised by the code; the constructor exists only so that the spec's
"empty-samples error" can be stated and compared with what the code does. -/
inductive PyErr where
  /-- `GLib.MappedFile` failure: file missing or unreadable. -/
  | ioError : PyErr
  /-- `GLib.Variant.new_from_bytes` failure: malformed container. -/
  | formatError : PyErr
  /-- `AssertionError`, raised by `assert variant['version'] == 1`. -/
  | assertionError : PyErr
  /-- `ZeroDivisionError`, raised by `/` when the divisor is zero. -/
  | zeroDivisionError : PyErr
  /-- The dedicated empty-samples data-integrity error the spec describes;
  not raised anywhere in the code. -/
  | emptySamples : PyErr
deriving DecidableEq, Repr

/-- A sample is an (offset, value) pair; both components are numbers. -/
abbrev Sample : Type := ℚ × ℚ

/-- The decoded benchmark record: the keys of the `a{sv}` dictionary that the
script reads, with the types the originating application stores. -/
structure BenchmarkVariant where
  version : ℤ
  device_size : ℕ
  timestamp_usec : ℕ
  sample_size : ℕ
  read_samples : List Sample
  write_samples : List Sample
  access_time_samples : List Sample
deriving DecidableEq, Repr

/-- Embedding of `average_of_samples(samples)`:
`values = [sample[1] for sample in samples]` followed by
`sum(values) / len(values)`.  Python raises `ZeroDivisionError` when
`len(values)` is zero. -/
def average_of_samples (samples : List Sample) : Except PyErr ℚ :=
  let values := samples.map (fun sample => sample.2)
  if values.length = 0 then Except.error PyErr.zeroDivisionError
  else Except.ok (values.sum / (values.length : ℚ))

/-- The arithmetic mean of the value components, as the spec describes it:
the sum of the second elements divided by the number of pairs. -/
def values_avg (samples : List Sample) : ℚ :=
  (samples.map Prod.snd).sum / (samples.length : ℚ)

/-- Helper: on a non-empty list the code's average succeeds and returns the
arithmetic mean of the value components. -/
theorem average_ok (samples : List Sample) (h : samples ≠ []) :
    average_of_samples samples = Except.ok (values_avg samples) := by
  have hlen : samples.length ≠ 0 := by
    simpa [List.length_eq_zero] using h
  simp only [average_of_samples, values_avg, List.length_map]
  rw [if_neg hlen]

/-- Helper: the sum of a list all of whose elements are `v` is
`length * v`. -/
theorem sum_of_const (l : List ℚ) (v : ℚ) (h : ∀ x ∈ l, x = v) :
    l.sum = (l.length : ℚ) * v := by
  induction l with
  | nil => simp
  | cons a t ih =>
      have ha : a = v := h a (List.mem_cons_self a t)
      have ht : ∀ x ∈ t, x = v := fun x hx => h x (List.mem_cons_of_mem a hx)
      simp only [List.sum_cons, List.length_cons, ha, ih ht]
      push_cast
      ring

/-- C1: for every non-empty sequence of (offset, value) sample pairs,
`average_of_samples` returns the arithmetic mean of the value components:
the sum of the second elements divided by the number of pairs. -/
theorem average_of_samples_is_mean (samples : List Sample) (h : samples ≠ []) :
    average_of_samples samples =
      Except.ok ((samples.map Prod.snd).sum / (samples.length : ℚ)) :=
  average_ok samples h

theorem average_of_samples_is_mean_witness :
    ([((0 : ℚ), (2 : ℚ)), (5, 4)] ≠ [] ∧
      average_of_samples [((0 : ℚ), (2 : ℚ)), (5, 4)] =
        Except.ok (([((0 : ℚ), (2 : ℚ)), (5, 4)].map Prod.snd).sum /
          (([((0 : ℚ), (2 : ℚ)), (5, 4)].length : ℚ)))) :=
  ⟨by decide, average_of_samples_is_mean [((0 : ℚ), (2 : ℚ)), (5, 4)] (by decide)⟩

/-- C2 counterexample: applied to the empty sequence, `average_of_samples`
does not raise the spec's dedicated empty-samples error; it raises
`ZeroDivisionError`, i.e. it fails exactly by dividing by zero. -/
theorem empty_error_is_zero_division :
    average_of_samples ([] : List Sample) = Except.error PyErr.zeroDivisionError ∧
      PyErr.zeroDivisionError ≠ PyErr.emptySamples :=
  ⟨rfl, by decide⟩

/-- C2 (amended): applied to the empty sequence, `average_of_samples` fails
by raising a division-by-zero error — it does not return NaN or zero — but
the error is Python's `ZeroDivisionError`, not a dedicated empty-samples
data-integrity error. -/
theorem average_of_samples_empty_fails :
    average_of_samples ([] : List Sample) = Except.error PyErr.zeroDivisionError :=
  rfl

/-- C6: for every value `v` and every `N ≥ 1`, the average of a sequence of
`N` sample pairs all having value `v` is exactly `v`. -/
theorem average_of_samples_const (v : ℚ) (N : ℕ) (hN : 1 ≤ N)
    (samples : List Sample) (hlen : samples.length = N)
    (hval : ∀ s ∈ samples, s.2 = v) :
    average_of_samples samples = Except.ok v := by
  have hne : samples ≠ [] := by
    intro hnil
    subst hnil
    simp at hlen
    omega
  rw [average_ok samples hne]
  have hall : ∀ x ∈ samples.map Prod.snd, x = v := by
    intro x hx
    rcases List.mem_map.mp hx with ⟨s, hs, rfl⟩
    exact hval s hs
  have hlen0 : (samples.length : ℚ) ≠ 0 := by
    rw [hlen]
    exact_mod_cast Nat.one_le_iff_ne_zero.mp hN
  rw [values_avg, sum_of_const _ v hall, List.length_map,
    mul_div_cancel_left₀ v hlen0]

theorem average_of_samples_const_witness :
    1 ≤ 3 ∧ average_of_samples [((0 : ℚ), (7 : ℚ)), (1, 7), (2, 7)] = Except.ok 7 :=
  ⟨by decide,
    average_of_samples_const 7 3 (by decide) [((0 : ℚ), (7 : ℚ)), (1, 7), (2, 7)]
      (by decide) (by decide)⟩

/-- C7: `average_of_samples` is order- and offset-insensitive: permuting the
sample sequence does not change the result, and neither does changing only
the offset components (anything that preserves the list of value
components). -/
theorem average_of_samples_insensitive (s₁ s₂ : List Sample) :
    (s₁.Perm s₂ → average_of_samples s₁ = average_of_samples s₂) ∧
      (s₁.map Prod.snd = s₂.map Prod.snd →
        average_of_samples s₁ = average_of_samples s₂) := by
  constructor
  · intro hp
    have hmap : (s₁.map (fun sample => sample.2)).Perm
        (s₂.map (fun sample => sample.2)) := hp.map _
    simp only [average_of_samples, hmap.sum_eq, hmap.length_eq]
  · intro hv
    have hv' : s₁.map (fun sample => sample.2) =
        s₂.map (fun sample => sample.2) := hv
    simp only [average_of_samples, hv']

theorem average_of_samples_insensitive_witness :
    average_of_samples [((0 : ℚ), (1 : ℚ)), (2, 3)] =
        average_of_samples [((2 : ℚ), (3 : ℚ)), (0, 1)] ∧
      average_of_samples [((0 : ℚ), (5 : ℚ))] =
        average_of_samples [((9 : ℚ), (5 : ℚ))] :=
  ⟨(average_of_samples_insensitive [((0 : ℚ), (1 : ℚ)), (2, 3)]
      [((2 : ℚ), (3 : ℚ)), (0, 1)]).1 (by decide),
    (average_of_samples_insensitive [((0 : ℚ), (5 : ℚ))]
      [((9 : ℚ), (5 : ℚ))]).2 (by decide)⟩

/-- Python's `round(x)` on a number: nearest integer, ties to even. -/
def pyRound (q : ℚ) : ℤ :=
  let f := ⌊q⌋
  let r := q - (f : ℚ)
  if r < 1 / 2 then f
  else if 1 / 2 < r then f + 1
  else if f % 2 = 0 then f else f + 1

/-- Left-pad a string with zeros to the given width. -/
def padZeros (w : ℕ) (s : String) : String :=
  String.mk (List.replicate (w - s.length) '0') ++ s

/-- Python's fixed-point formatting `{x:.pf}` (for `p ≥ 1`), idealised over
exact rationals: the value scaled by `10^p` is rounded to the nearest
integer, ties to even, and rendered with `p` digits after the point. -/
def fmtFixed (q : ℚ) (p : ℕ) : String :=
  let scaled := pyRound (q * (10 : ℚ) ^ p)
  let sign := if scaled < 0 then "-" else ""
  let n := scaled.natAbs
  sign ++ toString (n / 10 ^ p) ++ "." ++ padZeros p (toString (n % 10 ^ p))

/-- Insert a comma after every third character of a reversed digit list. -/
def commaRev : List Char → List Char
  | a :: b :: c :: d :: rest => a :: b :: c :: ',' :: commaRev (d :: rest)
  | l => l

/-- Python's thousands-separated formatting `{n:,}` for a natural number. -/
def fmtThousands (n : ℕ) : String :=
  String.mk (commaRev (Nat.toDigits 10 n).reverse).reverse

/-- Python's right-justification `{s:>w}`: pad with spaces on the left. -/
def rjust (s : String) (w : ℕ) : String :=
  String.mk (List.replicate (w - s.length) ' ') ++ s

/-- Stands for the library call
`datetime.datetime.fromtimestamp(usec / 1e6, UTC).strftime("%c %Z")`.
The rendered text is locale-dependent (spec §9 flags this) and no claim
depends on its content, so the timestamp value is rendered abstractly. -/
def strftime_c_Z (secs : ℚ) : String :=
  "local-time(" ++ toString secs.num ++ "/" ++ toString secs.den ++ ")"

/-- Embedding of `print_benchmark_summary(filename, variant)`.  Each `print`
call appends one line to stdout; the f-string of a line is evaluated before
the line is emitted, so an exception raised while averaging for one line
leaves all earlier lines emitted and the rest unprinted.  The first four
lines cannot raise (the record's integer fields are present by
construction). -/
def print_benchmark_summary (filename : String) (variant : BenchmarkVariant) :
    List String × Option PyErr :=
  let l₁ := filename ++ ":"
  let l₂ := rjust "Disk or Device" 22 ++ "  " ++
    fmtThousands variant.device_size ++ " bytes"
  let l₃ := rjust "Last Benchmarked" 22 ++ "  " ++
    strftime_c_Z ((variant.timestamp_usec : ℚ) / 1000000)
  let l₄ := rjust "Sample Size" 22 ++ "  " ++
    fmtThousands variant.sample_size ++ " bytes"
  match average_of_samples variant.read_samples with
  | Except.error e => ([l₁, l₂, l₃, l₄], some e)
  | Except.ok ra =>
    let l₅ := rjust "Average Read Rate" 22 ++ "  " ++
      fmtFixed (ra / 1000000) 1 ++ " MB/s (" ++
      toString variant.read_samples.length ++ " samples)"
    match average_of_samples variant.write_samples with
    | Except.error e => ([l₁, l₂, l₃, l₄, l₅], some e)
    | Except.ok wa =>
      let l₆ := rjust "Average Write Rate" 22 ++ "  " ++
        fmtFixed (wa / 1000000) 1 ++ " MB/s (" ++
        toString variant.write_samples.length ++ " samples)"
      match average_of_samples variant.access_time_samples with
      | Except.error e => ([l₁, l₂, l₃, l₄, l₅, l₆], some e)
      | Except.ok aa =>
        let l₇ := rjust "Average Access Time" 22 ++ "  " ++
          fmtFixed (aa * 1000) 2 ++ " msec (" ++
          toString variant.access_time_samples.length ++ " samples)"
        ([l₁, l₂, l₃, l₄, l₅, l₆, l₇], none)

/-- Embedding of `print_benchmark_averages(filename, variant)`: a single
`print` whose f-string evaluates the three averages (read, then write, then
access time) before anything is emitted, so an exception leaves stdout
untouched. -/
def print_benchmark_averages (filename : String) (variant : BenchmarkVariant) :
    List String × Option PyErr :=
  match average_of_samples variant.read_samples with
  | Except.error e => ([], some e)
  | Except.ok ra =>
    match average_of_samples variant.write_samples with
    | Except.error e => ([], some e)
    | Except.ok wa =>
      match average_of_samples variant.access_time_samples with
      | Except.error e => ([], some e)
      | Except.ok aa =>
        ([toString (pyRound ra) ++ "\t" ++ toString (pyRound wa) ++ "\t" ++
          fmtFixed aa 6 ++ "\t" ++ filename], none)

/-- Embedding of `read_variant_from_benchmark_file(filename)`.  The argument
is the outcome of the GLib decode of the file's bytes (see the module
comment); the function then executes `assert variant['version'] == 1`,
raising `AssertionError` when the version field differs from 1, and returns
the variant otherwise. -/
def read_variant_from_benchmark_file
    (decoded : Except PyErr BenchmarkVariant) : Except PyErr BenchmarkVariant :=
  match decoded with
  | Except.error e => Except.error e
  | Except.ok variant =>
    if variant.version = 1 then Except.ok variant
    else Except.error PyErr.assertionError

/-- One iteration of `main`'s loop for one input file: decode the file, then
dispatch on the `--tsv` flag.  An exception anywhere propagates (the loop
body catches nothing), with the lines printed so far already on stdout. -/
def processFile (tsv : Bool) (filename : String)
    (decoded : Except PyErr BenchmarkVariant) : List String × Option PyErr :=
  match read_variant_from_benchmark_file decoded with
  | Except.error e => ([], some e)
  | Except.ok variant =>
    if tsv then print_benchmark_averages filename variant
    else print_benchmark_summary filename variant

/-- Embedding of `main`'s file loop: files are processed in command-line
order and an uncaught exception aborts the run, keeping the output already
produced. -/
def mainLoop (tsv : Bool)
    (files : List (String × Except PyErr BenchmarkVariant)) :
    List String × Option PyErr :=
  match files with
  | [] => ([], none)
  | (filename, decoded) :: rest =>
    match processFile tsv filename decoded with
    | (out, some e) => (out, some e)
    | (out, none) =>
      let r := mainLoop tsv rest
      (out ++ r.1, r.2)

/-- Helper: `pyRound` is the identity on integers. -/
theorem pyRound_intCast (n : ℤ) : pyRound ((n : ℚ)) = n := by
  simp only [pyRound, Int.floor_intCast, sub_self]
  norm_num

/-- Helper: `pyRound` at an exact half rounds to the even neighbour. -/
theorem pyRound_add_half (n : ℤ) :
    pyRound ((n : ℚ) + 1 / 2) = if n % 2 = 0 then n else n + 1 := by
  have hfloor : ⌊(n : ℚ) + 1 / 2⌋ = n := by
    rw [add_comm, Int.floor_add_int]
    norm_num
  simp only [pyRound, hfloor]
  have e : (n : ℚ) + 1 / 2 - (n : ℚ) = 1 / 2 := by ring
  rw [e]
  norm_num

/-- Helper: evaluating `fmtFixed` once the scaled value is known to be the
integer `n`. -/
theorem fmtFixed_eval (q : ℚ) (p : ℕ) (n : ℤ) (h : q * (10 : ℚ) ^ p = (n : ℚ)) :
    fmtFixed q p =
      (if n < 0 then "-" else "") ++ toString (n.natAbs / 10 ^ p) ++ "." ++
        padZeros p (toString (n.natAbs % 10 ^ p)) := by
  simp only [fmtFixed, h, pyRound_intCast]

/-- Helper: on a record whose three sample lists are non-empty,
`print_benchmark_averages` emits exactly its one tab-separated line. -/
theorem print_benchmark_averages_ok (f : String) (v : BenchmarkVariant)
    (hr : v.read_samples ≠ []) (hw : v.write_samples ≠ [])
    (ha : v.access_time_samples ≠ []) :
    print_benchmark_averages f v =
      ([toString (pyRound (values_avg v.read_samples)) ++ "\t" ++
        toString (pyRound (values_avg v.write_samples)) ++ "\t" ++
        fmtFixed (values_avg v.access_time_samples) 6 ++ "\t" ++ f], none) := by
  simp only [print_benchmark_averages, average_ok _ hr, average_ok _ hw,
    average_ok _ ha]

/-- Helper: on a record whose three sample lists are non-empty,
`print_benchmark_summary` emits exactly its seven lines. -/
theorem print_benchmark_summary_ok (f : String) (v : BenchmarkVariant)
    (hr : v.read_samples ≠ []) (hw : v.write_samples ≠ [])
    (ha : v.access_time_samples ≠ []) :
    print_benchmark_summary f v =
      ([f ++ ":",
        rjust "Disk or Device" 22 ++ "  " ++
          fmtThousands v.device_size ++ " bytes",
        rjust "Last Benchmarked" 22 ++ "  " ++
          strftime_c_Z ((v.timestamp_usec : ℚ) / 1000000),
        rjust "Sample Size" 22 ++ "  " ++
          fmtThousands v.sample_size ++ " bytes",
        rjust "Average Read Rate" 22 ++ "  " ++
          fmtFixed (values_avg v.read_samples / 1000000) 1 ++ " MB/s (" ++
          toString v.read_samples.length ++ " samples)",
        rjust "Average Write Rate" 22 ++ "  " ++
          fmtFixed (values_avg v.write_samples / 1000000) 1 ++ " MB/s (" ++
          toString v.write_samples.length ++ " samples)",
        rjust "Average Access Time" 22 ++ "  " ++
          fmtFixed (values_avg v.access_time_samples * 1000) 2 ++ " msec (" ++
          toString v.access_time_samples.length ++ " samples)"], none) := by
  simp only [print_benchmark_summary, average_ok _ hr, average_ok _ hw,
    average_ok _ ha]

/-- A version-2 record (otherwise arbitrary), as in the spec's version-check
scenario. -/
def vVersionTwo : BenchmarkVariant :=
  ⟨2, 0, 0, 0, [((0 : ℚ), (1 : ℚ))], [((0 : ℚ), (1 : ℚ))], [((0 : ℚ), (1 : ℚ))]⟩

/-- C3: a decoded record whose version field is not 1 is rejected by the
decoder with the `AssertionError` of `assert variant['version'] == 1`, an
error distinct from the I/O and format errors; the result does not depend on
any other field of the record, and no output at all is produced for the
file, in either output mode. -/
theorem version_mismatch_rejected (v : BenchmarkVariant) (h : v.version ≠ 1) :
    read_variant_from_benchmark_file (Except.ok v) =
        Except.error PyErr.assertionError ∧
      PyErr.assertionError ≠ PyErr.ioError ∧
      PyErr.assertionError ≠ PyErr.formatError ∧
      ∀ (tsv : Bool) (f : String),
        processFile tsv f (Except.ok v) = ([], some PyErr.assertionError) := by
  have h1 : read_variant_from_benchmark_file (Except.ok v) =
      Except.error PyErr.assertionError := by
    simp [read_variant_from_benchmark_file, h]
  refine ⟨h1, by decide, by decide, ?_⟩
  intro tsv f
  simp [processFile, h1]

theorem version_mismatch_rejected_witness :
    vVersionTwo.version ≠ 1 ∧
      processFile false "bench.gdu" (Except.ok vVersionTwo) =
        ([], some PyErr.assertionError) :=
  ⟨by decide,
    (version_mismatch_rejected vVersionTwo (by decide)).2.2.2 false "bench.gdu"⟩

/-- A version-1 record with an empty read-samples list, whose decode
succeeds but whose verbose summary fails midway. -/
def vNoReads : BenchmarkVariant :=
  ⟨1, 0, 0, 0, [], [((0 : ℚ), (1 : ℚ))], [((0 : ℚ), (1 : ℚ))]⟩

/-- C4 counterexample: in verbose mode, a record with an empty read-samples
list makes the run fail with `ZeroDivisionError` after the first four
summary lines were already printed — the file produces partial output, not
all-or-nothing. -/
theorem verbose_partial_output :
    (processFile false "bench.gdu" (Except.ok vNoReads)).2 =
        some PyErr.zeroDivisionError ∧
      (processFile false "bench.gdu" (Except.ok vNoReads)).1.length = 4 ∧
      (processFile false "bench.gdu" (Except.ok vNoReads)).1 ≠ [] :=
  ⟨rfl, rfl, by decide⟩

/-- Helper: the TSV printer either emits its single complete line with no
error, or emits nothing and an error escapes. -/
theorem print_benchmark_averages_shape (f : String) (v : BenchmarkVariant) :
    (print_benchmark_averages f v).2 = none ∧
        (print_benchmark_averages f v).1.length = 1 ∨
      (print_benchmark_averages f v).1 = [] ∧
        (print_benchmark_averages f v).2.isSome = true := by
  cases hra : average_of_samples v.read_samples with
  | error e => right; simp [print_benchmark_averages, hra]
  | ok ra =>
    cases hwa : average_of_samples v.write_samples with
    | error e => right; simp [print_benchmark_averages, hra, hwa]
    | ok wa =>
      cases haa : average_of_samples v.access_time_samples with
      | error e => right; simp [print_benchmark_averages, hra, hwa, haa]
      | ok aa => left; simp [print_benchmark_averages, hra, hwa, haa]

/-- C4 (amended): output is all-or-nothing in TSV mode (one complete line or
nothing), and a decode error or version mismatch produces no output in
either mode; but in verbose mode an error raised while averaging occurs
after earlier summary lines were already printed, so a file can produce a
partial summary (see the counterexample). -/
theorem output_atomicity_amended (f : String)
    (d : Except PyErr BenchmarkVariant) :
    ((processFile true f d).2 = none ∧ (processFile true f d).1.length = 1 ∨
        (processFile true f d).1 = [] ∧
          (processFile true f d).2.isSome = true) ∧
      (∀ e : PyErr, d = Except.error e →
        processFile false f d = ([], some e)) ∧
      (∀ v : BenchmarkVariant, d = Except.ok v → v.version ≠ 1 →
        processFile false f d = ([], some PyErr.assertionError)) := by
  refine ⟨?_, ?_, ?_⟩
  · cases d with
    | error e => right; exact ⟨rfl, rfl⟩
    | ok v =>
      by_cases hv : v.version = 1
      · have hpf : processFile true f (Except.ok v) =
            print_benchmark_averages f v := by
          simp [processFile, read_variant_from_benchmark_file, hv]
        rw [hpf]
        exact print_benchmark_averages_shape f v
      · right
        have hpf : processFile true f (Except.ok v) =
            ([], some PyErr.assertionError) := by
          simp [processFile, read_variant_from_benchmark_file, hv]
        rw [hpf]
        exact ⟨rfl, rfl⟩
  · intro e hd
    subst hd
    rfl
  · intro v hd hv
    subst hd
    simp [processFile, read_variant_from_benchmark_file, hv]

theorem output_atomicity_amended_witness :
    processFile false "other.gdu" (Except.error PyErr.ioError) =
      ([], some PyErr.ioError) :=
  (output_atomicity_amended "other.gdu"
    (Except.error PyErr.ioError)).2.1 PyErr.ioError rfl

/-- The record of the spec's worked scenario: device-size 256,060,514,304,
sample-size 1,048,576, read-samples [(0, 5e8), (1000, 6e8)], write-samples
[(0, 4e8)], access-time-samples [(0, 0.012), (500, 0.018)]. -/
def exampleVariant : BenchmarkVariant :=
  ⟨1, 256060514304, 0, 1048576,
    [((0 : ℚ), (500000000 : ℚ)), (1000, 600000000)],
    [((0 : ℚ), (400000000 : ℚ))],
    [((0 : ℚ), 12 / 1000), (500, 18 / 1000)]⟩

/-- C5: in TSV mode a valid record yields exactly one line — rounded integer
average read rate, tab, rounded integer average write rate, tab, average
access time to six decimal places, tab, filename — and on the spec's worked
scenario the line is `550000000`, tab, `400000000`, tab, `0.015000`, tab,
filename. -/
theorem tsv_line_format (f : String) (v : BenchmarkVariant)
    (hr : v.read_samples ≠ []) (hw : v.write_samples ≠ [])
    (ha : v.access_time_samples ≠ []) :
    print_benchmark_averages f v =
        ([toString (pyRound (values_avg v.read_samples)) ++ "\t" ++
          toString (pyRound (values_avg v.write_samples)) ++ "\t" ++
          fmtFixed (values_avg v.access_time_samples) 6 ++ "\t" ++ f], none) ∧
      print_benchmark_averages f exampleVariant =
        (["550000000\t400000000\t0.015000\t" ++ f], none) := by
  refine ⟨print_benchmark_averages_ok f v hr hw ha, ?_⟩
  have h1 : values_avg exampleVariant.read_samples = ((550000000 : ℤ) : ℚ) := by
    simp [values_avg, exampleVariant]
    norm_num
  have h2 : values_avg exampleVariant.write_samples = ((400000000 : ℤ) : ℚ) := by
    simp [values_avg, exampleVariant]
  have h3 : fmtFixed (values_avg exampleVariant.access_time_samples) 6 =
      "0.015000" := by
    rw [fmtFixed_eval (values_avg exampleVariant.access_time_samples) 6 15000
      (by simp [values_avg, exampleVariant]; norm_num)]
    decide
  have h4 : toString (550000000 : ℤ) = "550000000" := by decide
  have h5 : toString (400000000 : ℤ) = "400000000" := by decide
  rw [print_benchmark_averages_ok f exampleVariant (by decide) (by decide)
      (by decide),
    h1, h2, pyRound_intCast, pyRound_intCast, h3, h4, h5]
  have hs : ("550000000" ++ "\t" ++ "400000000" ++ "\t" ++ "0.015000" ++ "\t"
      : String) = "550000000\t400000000\t0.015000\t" := by decide
  rw [hs]

theorem tsv_line_format_witness :
    print_benchmark_averages "file.gdu" exampleVariant =
        ([toString (pyRound (values_avg exampleVariant.read_samples)) ++ "\t" ++
          toString (pyRound (values_avg exampleVariant.write_samples)) ++ "\t" ++
          fmtFixed (values_avg exampleVariant.access_time_samples) 6 ++ "\t" ++
          "file.gdu"], none) ∧
      print_benchmark_averages "file.gdu" exampleVariant =
        (["550000000\t400000000\t0.015000\t" ++ "file.gdu"], none) :=
  tsv_line_format "file.gdu" exampleVariant (by decide) (by decide) (by decide)

/-- A small valid record whose three sample lists have lengths 1, 2 and 1. -/
def vSmall : BenchmarkVariant :=
  ⟨1, 1234, 987654321, 4096,
    [((0 : ℚ), (2 : ℚ))],
    [((0 : ℚ), (3 : ℚ)), (1, 4)],
    [((0 : ℚ), 1 / 2)]⟩

/-- C8: in the verbose summary of a valid record, the sample count shown on
each of the three metric lines (indices 4, 5, 6 of the output) is the length
of the corresponding sample sequence of the record. -/
theorem summary_sample_counts (f : String) (v : BenchmarkVariant)
    (hr : v.read_samples ≠ []) (hw : v.write_samples ≠ [])
    (ha : v.access_time_samples ≠ []) :
    (∃ a, (print_benchmark_summary f v).1[4]? =
        some (a ++ toString v.read_samples.length ++ " samples)")) ∧
      (∃ b, (print_benchmark_summary f v).1[5]? =
        some (b ++ toString v.write_samples.length ++ " samples)")) ∧
      (∃ c, (print_benchmark_summary f v).1[6]? =
        some (c ++ toString v.access_time_samples.length ++ " samples)")) := by
  rw [print_benchmark_summary_ok f v hr hw ha]
  exact ⟨⟨_, rfl⟩, ⟨_, rfl⟩, ⟨_, rfl⟩⟩

theorem summary_sample_counts_witness :
    (∃ a, (print_benchmark_summary "disk.gdu" vSmall).1[4]? =
        some (a ++ toString vSmall.read_samples.length ++ " samples)")) ∧
      (∃ b, (print_benchmark_summary "disk.gdu" vSmall).1[5]? =
        some (b ++ toString vSmall.write_samples.length ++ " samples)")) ∧
      (∃ c, (print_benchmark_summary "disk.gdu" vSmall).1[6]? =
        some (c ++ toString vSmall.access_time_samples.length ++ " samples)")) :=
  summary_sample_counts "disk.gdu" vSmall (by decide) (by decide) (by decide)

/-- C9: the verbose summary's first output line is the filename followed by
a colon, emitted before the six labeled lines. -/
theorem summary_first_line (f : String) (v : BenchmarkVariant)
    (hr : v.read_samples ≠ []) (hw : v.write_samples ≠ [])
    (ha : v.access_time_samples ≠ []) :
    (print_benchmark_summary f v).1.head? = some (f ++ ":") ∧
      ∃ rest, (print_benchmark_summary f v).1 = (f ++ ":") :: rest ∧
        rest.length = 6 := by
  rw [print_benchmark_summary_ok f v hr hw ha]
  exact ⟨rfl, ⟨_, rfl, rfl⟩⟩

theorem summary_first_line_witness :
    (print_benchmark_summary "disk2.gdu" vSmall).1.head? =
        some ("disk2.gdu" ++ ":") ∧
      ∃ rest, (print_benchmark_summary "disk2.gdu" vSmall).1 =
        ("disk2.gdu" ++ ":") :: rest ∧ rest.length = 6 :=
  summary_first_line "disk2.gdu" vSmall (by decide) (by decide) (by decide)

/-- A record whose average read rate is exactly 1/2 and average write rate
exactly 3/2: both averages sit halfway between two integers. -/
def vHalf : BenchmarkVariant :=
  ⟨1, 0, 0, 0,
    [((0 : ℚ), (0 : ℚ)), (1, 1)],
    [((0 : ℚ), (1 : ℚ)), (1, 2)],
    [((0 : ℚ), (0 : ℚ))]⟩

/-- C10: the TSV read-rate and write-rate fields are rounded with Python's
round-half-to-even: whenever the average read (resp. write) rate is exactly
halfway between two integers, the integer emitted in that field is the even
one of the two. -/
theorem tsv_round_half_to_even (f : String) (v : BenchmarkVariant)
    (hr : v.read_samples ≠ []) (hw : v.write_samples ≠ [])
    (ha : v.access_time_samples ≠ []) :
    (∀ n : ℤ, values_avg v.read_samples = (n : ℚ) + 1 / 2 →
      ∃ r : ℤ, Even r ∧ (r = n ∨ r = n + 1) ∧
        (print_benchmark_averages f v).1 =
          [toString r ++ "\t" ++
            toString (pyRound (values_avg v.write_samples)) ++ "\t" ++
            fmtFixed (values_avg v.access_time_samples) 6 ++ "\t" ++ f]) ∧
      (∀ m : ℤ, values_avg v.write_samples = (m : ℚ) + 1 / 2 →
        ∃ w : ℤ, Even w ∧ (w = m ∨ w = m + 1) ∧
          (print_benchmark_averages f v).1 =
            [toString (pyRound (values_avg v.read_samples)) ++ "\t" ++
              toString w ++ "\t" ++
              fmtFixed (values_avg v.access_time_samples) 6 ++ "\t" ++ f]) := by
  have hout := print_benchmark_averages_ok f v hr hw ha
  constructor
  · intro n hn
    refine ⟨pyRound (values_avg v.read_samples), ?_, ?_, by rw [hout]⟩
    · by_cases h2 : n % 2 = 0
      · rw [hn, pyRound_add_half, if_pos h2]
        exact Int.even_iff.mpr h2
      · rw [hn, pyRound_add_half, if_neg h2]
        exact Int.even_iff.mpr (by omega)
    · by_cases h2 : n % 2 = 0
      · rw [hn, pyRound_add_half, if_pos h2]
        exact Or.inl rfl
      · rw [hn, pyRound_add_half, if_neg h2]
        exact Or.inr rfl
  · intro m hm
    refine ⟨pyRound (values_avg v.write_samples), ?_, ?_, by rw [hout]⟩
    · by_cases h2 : m % 2 = 0
      · rw [hm, pyRound_add_half, if_pos h2]
        exact Int.even_iff.mpr h2
      · rw [hm, pyRound_add_half, if_neg h2]
        exact Int.even_iff.mpr (by omega)
    · by_cases h2 : m % 2 = 0
      · rw [hm, pyRound_add_half, if_pos h2]
        exact Or.inl rfl
      · rw [hm, pyRound_add_half, if_neg h2]
        exact Or.inr rfl

theorem tsv_round_half_to_even_witness :
    ∃ r : ℤ, Even r ∧ (r = 0 ∨ r = 0 + 1) ∧
      (print_benchmark_averages "bench2.gdu" vHalf).1 =
        [toString r ++ "\t" ++
          toString (pyRound (values_avg vHalf.write_samples)) ++ "\t" ++
          fmtFixed (values_avg vHalf.access_time_samples) 6 ++ "\t" ++
          "bench2.gdu"] :=
  (tsv_round_half_to_even "bench2.gdu" vHalf (by decide) (by decide)
    (by decide)).1 0 (by simp [values_avg, vHalf])
